import Mathlib

/-!
Verification of the rafter-cli security-policy core.

This file gives a shallow embedding, in Lean 4, of the pure decision
logic of the `rafter_cli` Python package and proves (or refutes) the
behavioural claims made about it in the specification.

Embedded modules:
* `core/pattern_engine.py` — `PatternEngine._redact`;
* `core/risk_rules.py` — `assess_command_risk` and the fixed tiered
  pattern lists;
* `core/command_interceptor.py` — `CommandInterceptor.evaluate`,
  `_matches` and the duplicated `_assess_risk`;
* `core/config_manager.py` — `_migrate` and `load_with_policy`;
* `core/audit_logger.py` — `read` and the error path of `cleanup`;
* `commands/agent.py` — `_apply_baseline`.

Python regular-expression search on the **fixed, literal** pattern
lists of `risk_rules.py` is embedded by a small executable matcher
over a regex syntax tree (`Re`); each tree below is a transliteration
of one source pattern, recorded next to it.  Regex compilation of
**arbitrary** configuration strings (Python's `re.compile`, which can
fail) is abstracted as an oracle `String → Option (String → Bool)`:
`none` models `re.error`, `some f` models a compiled pattern with
search function `f`.  All other code is translated directly.
-/

namespace Rafter

/-! ## String utilities (Python semantics)

`containsB pat s` is Python's substring test `pat in s` on the
character lists of the two strings.  `pyStrLe a b` is Python's
`a <= b` on strings: lexicographic comparison by code point. -/

/-- Python list/str prefix test: `s` starts with `pat`. -/
def isPrefixB : List Char → List Char → Bool
  | [], _ => true
  | _ :: _, [] => false
  | a :: as, b :: bs => a == b && isPrefixB as bs

/-- Python substring containment `pat in s` (case-sensitive). -/
def containsB : List Char → List Char → Bool
  | pat, [] => pat.isEmpty
  | pat, s@(_ :: rest) => isPrefixB pat s || containsB pat rest

/-- Python string comparison `a <= b`: lexicographic by code point. -/
def pyStrLe : List Char → List Char → Bool
  | [], _ => true
  | _ :: _, [] => false
  | a :: as, b :: bs => if a == b then pyStrLe as bs else decide (a < b)

/-! ## PatternEngine._redact (core/pattern_engine.py, lines 90–95)

```python
if len(match) < 16:
    return "*" * len(match)
visible = 4
return match[:visible] + "*" * (len(match) - visible * 2) + match[-visible:]
``` -/

/-- `PatternEngine._redact`, on the character list of the input. -/
def redactL (m : List Char) : List Char :=
  if m.length < 16 then List.replicate m.length '*'
  else m.take 4 ++ List.replicate (m.length - 4 * 2) '*' ++ m.drop (m.length - 4)

/-- `PatternEngine._redact` on strings. -/
def redact (m : String) : String := String.mk (redactL m.data)

/-- Taking exactly the length of the left part of an append yields
that part. -/
theorem take_append_exact {α : Type} (a b : List α) (n : Nat)
    (h : a.length = n) : (a ++ b).take n = a := by
  rw [List.take_append_eq_append_take, h, Nat.sub_self, List.take_zero,
    List.append_nil, ← h, List.take_length]

/-- Dropping exactly the length of the left part of an append yields
the right part. -/
theorem drop_append_exact {α : Type} (a b : List α) (n : Nat)
    (h : a.length = n) : (a ++ b).drop n = b := by
  rw [List.drop_append_eq_append_drop, h, Nat.sub_self, List.drop_zero,
    ← h, List.drop_length, List.nil_append]

/-- Length of the redacted text equals the input length. -/
theorem redactL_length (m : List Char) : (redactL m).length = m.length := by
  unfold redactL
  split
  · simp
  · rename_i h
    push_neg at h
    simp only [List.length_append, List.length_take, List.length_replicate,
      List.length_drop]
    omega

/-- C8: For every input string, `redact` returns a string of the same
length; if the input length is < 16 every character is the mask
character `'*'`; otherwise the first 4 and last 4 characters are
preserved verbatim and every interior character is the mask
character. -/
theorem redact_shape (s : String) :
    (redact s).length = s.length ∧
    (s.length < 16 → (redact s).data = List.replicate s.length '*') ∧
    (16 ≤ s.length →
      (redact s).data.take 4 = s.data.take 4 ∧
      (redact s).data.drop (s.length - 4) = s.data.drop (s.length - 4) ∧
      ((redact s).data.drop 4).take (s.length - 8) =
        List.replicate (s.length - 8) '*') := by
  have hlen : s.length = s.data.length := rfl
  refine ⟨?_, ?_, ?_⟩
  · show (redactL s.data).length = s.data.length
    exact redactL_length s.data
  · intro h
    show redactL s.data = List.replicate s.data.length '*'
    rw [hlen] at h
    unfold redactL
    rw [if_pos h]
  · intro h
    rw [hlen] at h
    have hd : redactL s.data =
        s.data.take 4 ++ List.replicate (s.data.length - 8) '*' ++
          s.data.drop (s.data.length - 4) := by
      unfold redactL
      rw [if_neg (by omega)]
    have hta : (s.data.take 4).length = 4 := by
      rw [List.length_take]; omega
    refine ⟨?_, ?_, ?_⟩
    · show (redactL s.data).take 4 = s.data.take 4
      rw [hd, List.append_assoc, take_append_exact _ _ _ hta]
    · show (redactL s.data).drop (s.data.length - 4) = s.data.drop (s.data.length - 4)
      rw [hd, drop_append_exact _ _ _
        (by rw [List.length_append, List.length_replicate, hta]; omega)]
    · show ((redactL s.data).drop 4).take (s.data.length - 8) =
        List.replicate (s.data.length - 8) '*'
      rw [hd, List.append_assoc, drop_append_exact _ _ _ hta,
        take_append_exact _ _ _ (List.length_replicate _ _)]

/-- Witness for C8 at concrete inputs: a 3-character string is fully
masked, and a 20-character string keeps its first and last 4
characters with a masked interior. -/
theorem redact_shape_witness :
    (redact "abc").length = ("abc" : String).length ∧
    (redact "abc").data = List.replicate ("abc" : String).length '*' ∧
    (redact "aaaabbbbccccddddeeee").data.take 4 =
      ("aaaabbbbccccddddeeee" : String).data.take 4 ∧
    (redact "aaaabbbbccccddddeeee").data.drop
        (("aaaabbbbccccddddeeee" : String).length - 4) =
      ("aaaabbbbccccddddeeee" : String).data.drop
        (("aaaabbbbccccddddeeee" : String).length - 4) :=
  ⟨(redact_shape "abc").1,
   (redact_shape "abc").2.1 (by decide),
   ((redact_shape "aaaabbbbccccddddeeee").2.2 (by decide)).1,
   ((redact_shape "aaaabbbbccccddddeeee").2.2 (by decide)).2.1⟩

/-! ## A small regex matcher for the fixed risk signatures

The tiered risk signatures in `core/risk_rules.py` and
`core/command_interceptor.py` are fixed literals using only: literal
characters, `\s` (with `+`/`*`), `.` (with `*`), alternation groups,
and the word boundary `\b`.  `Re` is an AST covering exactly those
constructs; `reSearch` implements Python's `re.search` (match at any
position) with an optional `re.IGNORECASE` flag.  Matching uses a
fuel-bounded backtracking matcher; the fuel chosen in `reSearch` is
far above the maximal backtracking depth for these signatures. -/

inductive Re where
  | eps : Re
  | lit : Char → Re
  | space : Re
  | any : Re
  | wordB : Re
  | seq : Re → Re → Re
  | alt : Re → Re → Re
  | star : Re → Re
  | plus : Re → Re

/-- Python `\s`: space, tab, newline, carriage return, vertical tab,
form feed. -/
def isPySpace (c : Char) : Bool :=
  c == ' ' || c == '\t' || c == '\n' || c == '\r' ||
    c == Char.ofNat 11 || c == Char.ofNat 12

/-- Python `\w` (ASCII): letters, digits, underscore. -/
def isWordChar (c : Char) : Bool :=
  ('a' ≤ c && c ≤ 'z') || ('A' ≤ c && c ≤ 'Z') ||
    ('0' ≤ c && c ≤ '9') || c == '_'

/-- Character comparison, optionally case-insensitive
(`re.IGNORECASE`). -/
def chEq (ic : Bool) (a b : Char) : Bool :=
  if ic then a.toLower == b.toLower else a == b

/-- Python `\b`: the previous and next character disagree on
word-char-ness (string edges count as non-word). -/
def atBoundary (prev : Option Char) (s : List Char) : Bool :=
  (match prev with | none => false | some c => isWordChar c) !=
    (match s with | [] => false | c :: _ => isWordChar c)

/-- Fuel-bounded backtracking matcher in continuation-passing style.
`prev` is the character just before the current position (for `\b`);
the continuation receives the updated `prev` and the rest of the
input.  Returns whether some way of matching `r` at the start of `s`
lets the continuation succeed. -/
def matchRe (ic : Bool) :
    Nat → Re → Option Char → List Char → (Option Char → List Char → Bool) → Bool
  | 0, _, _, _, _ => false
  | Nat.succ f, r, prev, s, k =>
    match r with
    | .eps => k prev s
    | .lit c =>
      match s with
      | [] => false
      | a :: rest => chEq ic a c && k (some a) rest
    | .space =>
      match s with
      | [] => false
      | a :: rest => isPySpace a && k (some a) rest
    | .any =>
      match s with
      | [] => false
      | a :: rest => a != '\n' && k (some a) rest
    | .wordB => atBoundary prev s && k prev s
    | .seq r1 r2 =>
      matchRe ic f r1 prev s (fun p2 s2 => matchRe ic f r2 p2 s2 k)
    | .alt r1 r2 => matchRe ic f r1 prev s k || matchRe ic f r2 prev s k
    | .star r1 =>
      k prev s ||
        matchRe ic f r1 prev s (fun p2 s2 => matchRe ic f (.star r1) p2 s2 k)
    | .plus r1 => matchRe ic f (.seq r1 (.star r1)) prev s k

/-- Try to match `r` at every position of the input. -/
def searchFrom (ic : Bool) (f : Nat) (r : Re) :
    Option Char → List Char → Bool
  | prev, s =>
    matchRe ic f r prev s (fun _ _ => true) ||
      match s with
      | [] => false
      | a :: rest => searchFrom ic f r (some a) rest

/-- Python `re.search(r, s)` (with `re.IGNORECASE` when `ic`),
as a Boolean: does `r` match anywhere in `s`? -/
def reSearch (ic : Bool) (r : Re) (s : String) : Bool :=
  searchFrom ic (s.data.length * 16 + 100) r none s.data

/-- Sequence a list of regexes. -/
def seqs : List Re → Re
  | [] => .eps
  | [r] => r
  | r :: rs => .seq r (seqs rs)

/-- Literal string as a regex. -/
def lits (s : String) : Re := seqs (s.data.map Re.lit)

/-! ### The fixed signature lists

Each entry transliterates one Python regex literal, recorded in the
comment.  `CRITICAL_RES` and `MEDIUM_RES` are shared verbatim by
`risk_rules.py` (lines 9–17, 31–34) and the duplicate in
`command_interceptor.py` (lines 93–101, 113–116).  The high tier
differs between the two files: `risk_rules.py` (lines 19–29) carries
the word-bounded pipe-to-shell patterns, while the duplicate in
`command_interceptor.py` (lines 102–112) still carries the legacy
over-broad ones. -/

/-- `CRITICAL_PATTERNS` (`risk_rules.py` lines 9–17). -/
def CRITICAL_RES : List Re :=
  [ -- r"rm\s+-rf\s+/"
    seqs [lits "rm", .plus .space, lits "-rf", .plus .space, lits "/"],
    -- r":\(\)\{\s*:\|:&\s*\};:"  (the fork bomb)
    seqs [lits ":()\x7b", .star .space, lits ":|:&", .star .space,
      lits "\x7d;:"],
    -- r"dd\s+if=.*of=/dev/sd"
    seqs [lits "dd", .plus .space, lits "if=", .star .any,
      lits "of=/dev/sd"],
    -- r">\s*/dev/sd"
    seqs [lits ">", .star .space, lits "/dev/sd"],
    -- r"mkfs"
    lits "mkfs",
    -- r"fdisk"
    lits "fdisk",
    -- r"parted"
    lits "parted" ]

/-- The alternation `(bash|sh|zsh|dash)`. -/
def shellAlt : Re :=
  .alt (lits "bash") (.alt (lits "sh") (.alt (lits "zsh") (lits "dash")))

/-- `HIGH_PATTERNS` (`risk_rules.py` lines 19–29). -/
def HIGH_RES : List Re :=
  [ -- r"rm\s+-rf"
    seqs [lits "rm", .plus .space, lits "-rf"],
    -- r"sudo\s+rm"
    seqs [lits "sudo", .plus .space, lits "rm"],
    -- r"chmod\s+777"
    seqs [lits "chmod", .plus .space, lits "777"],
    -- r"curl.*\|\s*(bash|sh|zsh|dash)\b"
    seqs [lits "curl", .star .any, lits "|", .star .space, shellAlt,
      .wordB],
    -- r"wget.*\|\s*(bash|sh|zsh|dash)\b"
    seqs [lits "wget", .star .any, lits "|", .star .space, shellAlt,
      .wordB],
    -- r"git\s+push\s+--force"
    seqs [lits "git", .plus .space, lits "push", .plus .space,
      lits "--force"],
    -- r"docker\s+system\s+prune"
    seqs [lits "docker", .plus .space, lits "system", .plus .space,
      lits "prune"],
    -- r"npm\s+publish"
    seqs [lits "npm", .plus .space, lits "publish"],
    -- r"pypi.*upload"
    seqs [lits "pypi", .star .any, lits "upload"] ]

/-- The `high` list duplicated inside
`CommandInterceptor._assess_risk` (`command_interceptor.py` lines
102–112): identical to `HIGH_PATTERNS` except for the two legacy
pipe-to-shell entries. -/
def INTERCEPTOR_HIGH_RES : List Re :=
  [ -- r"rm\s+-rf"
    seqs [lits "rm", .plus .space, lits "-rf"],
    -- r"sudo\s+rm"
    seqs [lits "sudo", .plus .space, lits "rm"],
    -- r"chmod\s+777"
    seqs [lits "chmod", .plus .space, lits "777"],
    -- r"curl.*\|.*sh"
    seqs [lits "curl", .star .any, lits "|", .star .any, lits "sh"],
    -- r"wget.*\|.*sh"
    seqs [lits "wget", .star .any, lits "|", .star .any, lits "sh"],
    -- r"git\s+push\s+--force"
    seqs [lits "git", .plus .space, lits "push", .plus .space,
      lits "--force"],
    -- r"docker\s+system\s+prune"
    seqs [lits "docker", .plus .space, lits "system", .plus .space,
      lits "prune"],
    -- r"npm\s+publish"
    seqs [lits "npm", .plus .space, lits "publish"],
    -- r"pypi.*upload"
    seqs [lits "pypi", .star .any, lits "upload"] ]

/-- `MEDIUM_PATTERNS` (`risk_rules.py` lines 31–34). -/
def MEDIUM_RES : List Re :=
  [ lits "sudo", lits "chmod", lits "chown", lits "systemctl",
    lits "service",
    -- r"kill\s+-9"
    seqs [lits "kill", .plus .space, lits "-9"],
    lits "pkill", lits "killall" ]

/-- `risk_rules.assess_command_risk` (`risk_rules.py` lines 53–64):
critical, then high, then medium, each with `re.IGNORECASE`; `low`
when none match. -/
def assess_command_risk (command : String) : String :=
  if CRITICAL_RES.any (fun r => reSearch true r command) then "critical"
  else if HIGH_RES.any (fun r => reSearch true r command) then "high"
  else if MEDIUM_RES.any (fun r => reSearch true r command) then "medium"
  else "low"

/-- `CommandInterceptor._assess_risk` (`command_interceptor.py` lines
91–127): same tier structure, but `re.search` is called **without**
`re.IGNORECASE`, and the high tier is the stale duplicated list. -/
def interceptor_assess_risk (command : String) : String :=
  if CRITICAL_RES.any (fun r => reSearch false r command) then "critical"
  else if INTERCEPTOR_HIGH_RES.any (fun r => reSearch false r command) then "high"
  else if MEDIUM_RES.any (fun r => reSearch false r command) then "medium"
  else "low"

/-- C2: the claim states that `assessRisk` matches every signature
case-insensitively, so changing the letter case of a command never
changes its tier.  This holds for `risk_rules.assess_command_risk`
(which passes `re.IGNORECASE`), but the duplicate
`CommandInterceptor._assess_risk` — the one actually used by
`evaluate` — calls `re.search` without flags, although
`risk_rules.py` documents itself as the single source of truth
imported by `command_interceptor`.  Hence `"mkfs"` is critical but
`"MKFS"` is low for the interceptor, contradicting the claim; the
final conjunct shows the strict-tier-order part of the claim holding
on a command matching all three tiers. -/
theorem interceptor_assess_risk_case_bug :
    interceptor_assess_risk "mkfs" = "critical" ∧
    interceptor_assess_risk "MKFS" = "low" ∧
    assess_command_risk "mkfs" = "critical" ∧
    assess_command_risk "MKFS" = "critical" ∧
    assess_command_risk "sudo rm -rf /" = "critical" :=
  ⟨by decide, by decide, by decide, by decide, by decide⟩

/-! ## CommandInterceptor.evaluate (core/command_interceptor.py)

`CommandInterceptor._matches` (lines 84–89):

```python
try:
    return bool(re.search(pattern, command))
except re.error:
    return pattern in command
```

Compilation of arbitrary configuration patterns is abstracted by an
oracle `compile : String → Option (String → Bool)`: `compile pat =
none` models `re.compile` raising `re.error` on `pat`, and
`compile pat = some f` models a successfully compiled pattern whose
`re.search` against a command `c` returns `f c`. -/

/-- `CommandPolicyConfig` (`config_schema.py` lines 36–44), the three
fields used by `evaluate`. -/
structure CommandPolicyConfig where
  mode : String
  blocked_patterns : List String
  require_approval : List String
deriving DecidableEq

/-- `CommandEvaluation` (`command_interceptor.py` lines 11–18). -/
structure CommandEvaluation where
  command : String
  risk_level : String
  allowed : Bool
  requires_approval : Bool
  reason : Option String
  matched_pattern : Option String
deriving DecidableEq

/-- `CommandInterceptor._matches`: regex search when the pattern
compiles, otherwise Python's (case-sensitive) substring containment
`pattern in command`. -/
def pymatches (compile : String → Option (String → Bool))
    (command pattern : String) : Bool :=
  match compile pattern with
  | some f => f command
  | none => containsB pattern.data command.data

/-- `CommandInterceptor.evaluate` (lines 26–72): blocked patterns
first, then approval patterns, then the `approve-dangerous` mode
heuristic, then default allow. -/
def evaluate (compile : String → Option (String → Bool))
    (policy : CommandPolicyConfig) (command : String) : CommandEvaluation :=
  match policy.blocked_patterns.find? (fun p => pymatches compile command p) with
  | some p =>
    { command := command, risk_level := "critical", allowed := false,
      requires_approval := false,
      reason := some ("Matches blocked pattern: " ++ p),
      matched_pattern := some p }
  | none =>
    match policy.require_approval.find? (fun p => pymatches compile command p) with
    | some p =>
      { command := command, risk_level := interceptor_assess_risk command,
        allowed := false, requires_approval := true,
        reason := some ("Matches approval pattern: " ++ p),
        matched_pattern := some p }
    | none =>
      if policy.mode == "approve-dangerous" &&
          (interceptor_assess_risk command == "high" ||
            interceptor_assess_risk command == "critical") then
        { command := command, risk_level := interceptor_assess_risk command,
          allowed := false, requires_approval := true,
          reason := some "High risk command requires approval",
          matched_pattern := none }
      else
        { command := command, risk_level := interceptor_assess_risk command,
          allowed := true, requires_approval := false,
          reason := none, matched_pattern := none }

/-- C1: whenever the command matches some blocked pattern — whatever
the approval patterns, mode, or regex-compilation outcomes — the
evaluation is a denial: allowed is false, approval is not requested,
the risk is reported as critical, and the reason cites a blocked
pattern that the command matches. -/
theorem evaluate_blocked_precedence
    (compile : String → Option (String → Bool))
    (policy : CommandPolicyConfig) (command : String)
    (h : policy.blocked_patterns.any (fun p => pymatches compile command p) = true) :
    (evaluate compile policy command).allowed = false ∧
    (evaluate compile policy command).requires_approval = false ∧
    (evaluate compile policy command).risk_level = "critical" ∧
    ∃ p, p ∈ policy.blocked_patterns ∧ pymatches compile command p = true ∧
      (evaluate compile policy command).reason =
        some ("Matches blocked pattern: " ++ p) ∧
      (evaluate compile policy command).matched_pattern = some p := by
  have hsome : (policy.blocked_patterns.find?
      (fun p => pymatches compile command p)).isSome := by
    rw [List.find?_isSome]
    rcases List.any_eq_true.mp h with ⟨p, hp, hm⟩
    exact ⟨p, hp, hm⟩
  rcases Option.isSome_iff_exists.mp hsome with ⟨p, hfind⟩
  have hmem : p ∈ policy.blocked_patterns := List.mem_of_find?_eq_some hfind
  have hmatch : pymatches compile command p = true := List.find?_some hfind
  unfold evaluate
  rw [hfind]
  exact ⟨rfl, rfl, rfl, p, hmem, hmatch, rfl, rfl⟩

/-- Witness for C1: with literal patterns compiled to substring
search, `"rm -rf /"` matches both the blocked pattern `"rm -rf /"`
and the approval pattern `"rm -rf"`, and blocked wins. -/
theorem evaluate_blocked_precedence_witness :
    ((CommandPolicyConfig.mk "approve-dangerous" ["rm -rf /"] ["rm -rf"]).blocked_patterns.any
      (fun p => pymatches (fun q => some (fun c => containsB q.data c.data)) "rm -rf /" p) = true) ∧
    ((CommandPolicyConfig.mk "approve-dangerous" ["rm -rf /"] ["rm -rf"]).require_approval.any
      (fun p => pymatches (fun q => some (fun c => containsB q.data c.data)) "rm -rf /" p) = true) ∧
    ((evaluate (fun q => some (fun c => containsB q.data c.data))
        (CommandPolicyConfig.mk "approve-dangerous" ["rm -rf /"] ["rm -rf"])
        "rm -rf /").allowed = false ∧
      (evaluate (fun q => some (fun c => containsB q.data c.data))
        (CommandPolicyConfig.mk "approve-dangerous" ["rm -rf /"] ["rm -rf"])
        "rm -rf /").requires_approval = false ∧
      (evaluate (fun q => some (fun c => containsB q.data c.data))
        (CommandPolicyConfig.mk "approve-dangerous" ["rm -rf /"] ["rm -rf"])
        "rm -rf /").risk_level = "critical" ∧
      ∃ p, p ∈ (CommandPolicyConfig.mk "approve-dangerous" ["rm -rf /"] ["rm -rf"]).blocked_patterns ∧
        pymatches (fun q => some (fun c => containsB q.data c.data)) "rm -rf /" p = true ∧
        (evaluate (fun q => some (fun c => containsB q.data c.data))
          (CommandPolicyConfig.mk "approve-dangerous" ["rm -rf /"] ["rm -rf"])
          "rm -rf /").reason = some ("Matches blocked pattern: " ++ p) ∧
        (evaluate (fun q => some (fun c => containsB q.data c.data))
          (CommandPolicyConfig.mk "approve-dangerous" ["rm -rf /"] ["rm -rf"])
          "rm -rf /").matched_pattern = some p) :=
  ⟨by decide, by decide,
   evaluate_blocked_precedence (fun q => some (fun c => containsB q.data c.data))
     (CommandPolicyConfig.mk "approve-dangerous" ["rm -rf /"] ["rm -rf"])
     "rm -rf /" (by decide)⟩

/-- Spec-side notion for C3, following the spec's words "fall back to
case-insensitive substring containment": containment after lowering
the case of both pattern and command. -/
def specCiContains (pattern command : String) : Bool :=
  containsB (pattern.data.map Char.toLower) (command.data.map Char.toLower)

/-- Counterexample to C3 as stated.  The pattern `"FOO["` is not a
compilable regex (unterminated character class), which the oracle
records as `none`.  Case-insensitive substring containment of
`"FOO["` in the command `"foo[ x"` holds, so under the claim the
command would match the blocked entry and be denied; the code's
fallback `pattern in command` is case-sensitive, does not match, and
the command is allowed. -/
theorem matches_fallback_cex :
    specCiContains "FOO[" "foo[ x" = true ∧
    pymatches (fun _ => none) "foo[ x" "FOO[" = false ∧
    (evaluate (fun _ => none)
      (CommandPolicyConfig.mk "allow-all" ["FOO["] []) "foo[ x").allowed = true ∧
    (evaluate (fun _ => none)
      (CommandPolicyConfig.mk "allow-all" ["FOO["] []) "foo[ x").requires_approval
      = false :=
  ⟨by decide, by decide, by decide, by decide⟩

/-- C3 amended: for every pattern entry whose text is not a
compilable regex, `_matches` does not raise — the entry degrades to
**case-sensitive** substring containment of the entry text in the
command — and `evaluate` still terminates with a `CommandEvaluation`
(for the evaluated command). -/
theorem matches_fallback_substring
    (compile : String → Option (String → Bool))
    (policy : CommandPolicyConfig) (command pattern : String)
    (h : compile pattern = none) :
    pymatches compile command pattern = containsB pattern.data command.data ∧
    (evaluate compile policy command).command = command := by
  constructor
  · unfold pymatches
    rw [h]
  · unfold evaluate
    split
    · rfl
    · split
      · rfl
      · split <;> rfl

/-- Witness for C3 (amended) at a concrete uncompilable pattern. -/
theorem matches_fallback_substring_witness :
    ((fun _ => none : String → Option (String → Bool)) "FOO[" = none) ∧
    (pymatches (fun _ => none) "some foo[ cmd" "FOO[" =
      containsB ("FOO[" : String).data ("some foo[ cmd" : String).data ∧
    (evaluate (fun _ => none)
      (CommandPolicyConfig.mk "allow-all" ["FOO["] []) "some foo[ cmd").command =
      "some foo[ cmd") :=
  ⟨rfl,
   matches_fallback_substring (fun _ => none)
     (CommandPolicyConfig.mk "allow-all" ["FOO["] []) "some foo[ cmd" "FOO[" rfl⟩

/-! ## ConfigManager._migrate (core/config_manager.py, lines 110–124)

```python
_bad_to_good = {
    r"curl.*\|.*sh": r"curl.*\|\s*(bash|sh|zsh|dash)\b",
    r"wget.*\|.*sh": r"wget.*\|\s*(bash|sh|zsh|dash)\b",
}
fixed = [_bad_to_good.get(p, p) for p in policy.require_approval]
if fixed != policy.require_approval:
    policy.require_approval = fixed
    self.save(config)
```

Pattern strings are opaque here — migration only compares and
replaces them. -/

/-- `_bad_to_good.get(p, p)`: rewrite one legacy rule. -/
def fixPattern (p : String) : String :=
  if p = "curl.*\\|.*sh" then "curl.*\\|\\s*(bash|sh|zsh|dash)\\b"
  else if p = "wget.*\\|.*sh" then "wget.*\\|\\s*(bash|sh|zsh|dash)\\b"
  else p

/-- `ConfigManager._migrate` restricted to the state it touches: the
`require_approval` list.  Returns the migrated list and whether the
config is written back (`fixed != policy.require_approval`). -/
def migrateRules (rules : List String) : List String × Bool :=
  (rules.map fixPattern, decide (rules.map fixPattern ≠ rules))

/-- One rewrite step is idempotent: the corrected patterns are not
themselves keys of the table. -/
theorem fixPattern_idem (p : String) :
    fixPattern (fixPattern p) = fixPattern p := by
  by_cases h1 : p = "curl.*\\|.*sh"
  · subst h1; decide
  · by_cases h2 : p = "wget.*\\|.*sh"
    · subst h2; decide
    · have hp : fixPattern p = p := by
        unfold fixPattern
        rw [if_neg h1, if_neg h2]
      rw [hp, hp]

/-- The migrated rule list is a fixed point of migration. -/
theorem migrate_map_idem (rules : List String) :
    (rules.map fixPattern).map fixPattern = rules.map fixPattern := by
  rw [List.map_map]
  exact List.map_congr_left (fun p _ => fixPattern_idem p)

/-- C4: config migration is idempotent.  Migrating the already
migrated rule list changes nothing and triggers no write, and a rule
list entirely outside the bad-to-good table's domain is returned
unchanged with no write — so two consecutive loads produce identical
rule lists and write at most once (on the first load only). -/
theorem migrate_idempotent (rules : List String) :
    (migrateRules (migrateRules rules).1).1 = (migrateRules rules).1 ∧
    (migrateRules (migrateRules rules).1).2 = false ∧
    ((∀ p ∈ rules, p ≠ "curl.*\\|.*sh" ∧ p ≠ "wget.*\\|.*sh") →
      migrateRules rules = (rules, false)) := by
  refine ⟨?_, ?_, ?_⟩
  · show (rules.map fixPattern).map fixPattern = rules.map fixPattern
    exact migrate_map_idem rules
  · show decide ((rules.map fixPattern).map fixPattern ≠ rules.map fixPattern) = false
    rw [migrate_map_idem rules]
    simp
  · intro h
    have hid : rules.map fixPattern = rules := by
      have : ∀ p ∈ rules, fixPattern p = p := by
        intro p hp
        rcases h p hp with ⟨h1, h2⟩
        unfold fixPattern
        rw [if_neg h1, if_neg h2]
      calc rules.map fixPattern = rules.map id := List.map_congr_left (fun p hp => this p hp)
        _ = rules := List.map_id rules
    unfold migrateRules
    rw [hid]
    simp

/-- Witness for C4: an already-corrected default rule list migrates
to itself with no write; a list containing the legacy curl rule is
rewritten (with a write) and the result then migrates with no
write. -/
theorem migrate_idempotent_witness :
    migrateRules ["rm -rf", "sudo rm", "git push --force"] =
      (["rm -rf", "sudo rm", "git push --force"], false) ∧
    migrateRules ["curl.*\\|.*sh", "git push --force"] =
      (["curl.*\\|\\s*(bash|sh|zsh|dash)\\b", "git push --force"], true) ∧
    (migrateRules (migrateRules ["curl.*\\|.*sh", "git push --force"]).1).2 = false :=
  ⟨(migrate_idempotent ["rm -rf", "sudo rm", "git push --force"]).2.2
      (by intro p hp; fin_cases hp <;> exact ⟨by decide, by decide⟩),
   by decide,
   (migrate_idempotent ["curl.*\\|.*sh", "git push --force"]).2.1⟩

/-! ## _apply_baseline (commands/agent.py, lines 1349–1365)

```python
def _apply_baseline(results, entries):
    if not entries:
        return results
    filtered = []
    for r in results:
        kept = [
            m for m in r.matches
            if not any(
                e["file"] == r.file
                and e["pattern"] == m.pattern.name
                and (e.get("line") is None or e.get("line") == m.line)
                for e in entries
            )
        ]
        if kept:
            filtered.append(ScanResult(file=r.file, matches=kept))
    return filtered
``` -/

/-- `Pattern` (`pattern_engine.py` lines 9–14). -/
structure Pattern where
  name : String
  regex : String
  severity : String
  description : String
deriving DecidableEq

/-- `PatternMatch` (`pattern_engine.py` lines 17–23); the Python
field `match` is called `matched` here (`match` is a Lean keyword). -/
structure PatternMatch where
  pattern : Pattern
  matched : String
  line : Option Nat
  column : Option Nat
  redacted : String
deriving DecidableEq

/-- `ScanResult` (`regex_scanner.py` lines 13–15); the Python field
`matches` is called `matchList` here (`matches` is a Lean keyword). -/
structure ScanResult where
  file : String
  matchList : List PatternMatch
deriving DecidableEq

/-- One baseline entry (`{file, line|null, pattern, addedAt}`). -/
structure BaselineEntry where
  file : String
  line : Option Nat
  pattern : String
  addedAt : String
deriving DecidableEq

/-- The per-entry suppression test from the list comprehension:
same file, same pattern name, and the entry's line is null (wildcard)
or equals the match's line. -/
def entryHits (e : BaselineEntry) (file : String) (m : PatternMatch) : Bool :=
  e.file == file && e.pattern == m.pattern.name &&
    (e.line == none || e.line == m.line)

/-- The body of the `for r in results` loop: keep the result with its
surviving matches, or drop it when none survive. -/
def keepResult (entries : List BaselineEntry) (r : ScanResult) :
    Option ScanResult :=
  if (r.matchList.filter
      (fun m => !(entries.any (fun e => entryHits e r.file m)))).isEmpty then
    none
  else
    some ⟨r.file, r.matchList.filter
      (fun m => !(entries.any (fun e => entryHits e r.file m)))⟩

/-- `_apply_baseline`, including the `if not entries: return results`
early return. -/
def apply_baseline (results : List ScanResult)
    (entries : List BaselineEntry) : List ScanResult :=
  if entries.isEmpty then results
  else results.filterMap (keepResult entries)

/-- Spec-side description of `applyBaseline` for C5, following the
spec's words: remove every suppressed match and drop the result
records left with zero matches — with no special case for an empty
baseline. -/
def specApplyBaseline (results : List ScanResult)
    (entries : List BaselineEntry) : List ScanResult :=
  results.filterMap (keepResult entries)

/-- Counterexample to C5 as stated: with an empty baseline, the early
return `if not entries: return results` hands back the input
unchanged, so a result record that already has zero matches is *not*
dropped, while the claimed characterization would drop it. -/
theorem apply_baseline_empty_record_cex :
    apply_baseline [⟨"f", []⟩] [] = [⟨"f", []⟩] ∧
    specApplyBaseline [⟨"f", []⟩] [] = [] ∧
    ((apply_baseline [⟨"f", []⟩] []).all fun r => !r.matchList.isEmpty) = false :=
  ⟨by decide, by decide, by decide⟩

/-- A kept result is a fixed point of `keepResult`: its surviving
matches survive the filter again, and it is non-empty. -/
theorem keepResult_fixed (entries : List BaselineEntry)
    (r r' : ScanResult) (h : keepResult entries r = some r') :
    keepResult entries r' = some r' := by
  unfold keepResult at h
  by_cases hk : (r.matchList.filter
      (fun m => !(entries.any (fun e => entryHits e r.file m)))).isEmpty
  · rw [if_pos hk] at h
    exact absurd h (by simp)
  · rw [if_neg hk] at h
    have hr' : r' = ⟨r.file, r.matchList.filter
        (fun m => !(entries.any (fun e => entryHits e r.file m)))⟩ :=
      (Option.some_injective _ h).symm
    subst hr'
    unfold keepResult
    simp only
    rw [List.filter_eq_self.mpr (fun m hm => (List.mem_filter.mp hm).2)]
    rw [if_neg hk]

/-- `filterMap` by a function whose `some`-outputs are fixed points
is idempotent. -/
theorem filterMap_fixed_idem {α : Type} (f : α → Option α)
    (hf : ∀ a b, f a = some b → f b = some b) (l : List α) :
    (l.filterMap f).filterMap f = l.filterMap f := by
  induction l with
  | nil => rfl
  | cons a l ih =>
    rw [List.filterMap_cons]
    cases ha : f a with
    | none => exact ih
    | some b =>
      rw [List.filterMap_cons, hf a b ha, ih]

/-- With an empty baseline and no empty-match records,
`specApplyBaseline` keeps every record unchanged. -/
theorem specApply_nil_entries (results : List ScanResult)
    (h : ∀ r ∈ results, r.matchList ≠ []) :
    specApplyBaseline results [] = results := by
  induction results with
  | nil => rfl
  | cons r rs ih =>
    have hr : r.matchList ≠ [] := h r (by simp)
    have hrs := ih (fun x hx => h x (by simp [hx]))
    unfold specApplyBaseline at hrs ⊢
    rw [List.filterMap_cons]
    have hkeep : keepResult [] r = some r := by
      unfold keepResult
      have hfil : r.matchList.filter
          (fun m => !(([] : List BaselineEntry).any (fun e => entryHits e r.file m)))
          = r.matchList := by
        simp
      rw [hfil, if_neg (by simpa using hr)]
    rw [hkeep, hrs]

/-- C5 amended: provided every input record carries at least one
match (as scanner output does — empty-match results are dropped
before return), `applyBaseline` removes exactly the baseline-
suppressed matches and drops the records left empty
(`specApplyBaseline` spells out that characterization with no
empty-baseline special case); and `applyBaseline` is idempotent.
With an empty baseline the code instead returns the input unchanged,
which only differs on records that were already empty. -/
theorem apply_baseline_characterization (results : List ScanResult)
    (entries : List BaselineEntry)
    (h : ∀ r ∈ results, r.matchList ≠ []) :
    apply_baseline results entries = specApplyBaseline results entries ∧
    apply_baseline (apply_baseline results entries) entries =
      apply_baseline results entries := by
  by_cases he : entries.isEmpty
  · have he' : entries = [] := List.isEmpty_iff.mp he
    subst he'
    have h1 : apply_baseline results [] = results := rfl
    refine ⟨?_, ?_⟩
    · rw [h1, specApply_nil_entries results h]
    · rw [h1, h1]
  · have h1 : ∀ l : List ScanResult,
        apply_baseline l entries = l.filterMap (keepResult entries) := by
      intro l
      unfold apply_baseline
      rw [if_neg (by simpa using he)]
    refine ⟨h1 results, ?_⟩
    rw [h1, h1]
    exact filterMap_fixed_idem (keepResult entries)
      (keepResult_fixed entries) results

/-- Witness for C5 at a concrete scan: the baseline suppresses the
exact-line and wildcard-line findings, drops the record left empty,
and applying the baseline twice changes nothing. -/
theorem apply_baseline_characterization_witness :
    apply_baseline
        [⟨"a.py", [⟨⟨"AWS Access Key", "AKIA", "critical", ""⟩, "AKIAX", some 3, some 1, "****"⟩]⟩,
         ⟨"b.py", [⟨⟨"GitHub Token", "ghp_", "high", ""⟩, "ghp_Y", some 7, some 2, "****"⟩]⟩]
        [⟨"a.py", none, "AWS Access Key", "2024-01-01"⟩] =
      specApplyBaseline
        [⟨"a.py", [⟨⟨"AWS Access Key", "AKIA", "critical", ""⟩, "AKIAX", some 3, some 1, "****"⟩]⟩,
         ⟨"b.py", [⟨⟨"GitHub Token", "ghp_", "high", ""⟩, "ghp_Y", some 7, some 2, "****"⟩]⟩]
        [⟨"a.py", none, "AWS Access Key", "2024-01-01"⟩] ∧
    apply_baseline (apply_baseline
        [⟨"a.py", [⟨⟨"AWS Access Key", "AKIA", "critical", ""⟩, "AKIAX", some 3, some 1, "****"⟩]⟩,
         ⟨"b.py", [⟨⟨"GitHub Token", "ghp_", "high", ""⟩, "ghp_Y", some 7, some 2, "****"⟩]⟩]
        [⟨"a.py", none, "AWS Access Key", "2024-01-01"⟩])
        [⟨"a.py", none, "AWS Access Key", "2024-01-01"⟩] =
      apply_baseline
        [⟨"a.py", [⟨⟨"AWS Access Key", "AKIA", "critical", ""⟩, "AKIAX", some 3, some 1, "****"⟩]⟩,
         ⟨"b.py", [⟨⟨"GitHub Token", "ghp_", "high", ""⟩, "ghp_Y", some 7, some 2, "****"⟩]⟩]
        [⟨"a.py", none, "AWS Access Key", "2024-01-01"⟩] ∧
    apply_baseline
        [⟨"a.py", [⟨⟨"AWS Access Key", "AKIA", "critical", ""⟩, "AKIAX", some 3, some 1, "****"⟩]⟩,
         ⟨"b.py", [⟨⟨"GitHub Token", "ghp_", "high", ""⟩, "ghp_Y", some 7, some 2, "****"⟩]⟩]
        [⟨"a.py", none, "AWS Access Key", "2024-01-01"⟩] =
      [⟨"b.py", [⟨⟨"GitHub Token", "ghp_", "high", ""⟩, "ghp_Y", some 7, some 2, "****"⟩]⟩] :=
  ⟨(apply_baseline_characterization _ _ (by intro r hr; fin_cases hr <;> simp)).1,
   (apply_baseline_characterization _ _ (by intro r hr; fin_cases hr <;> simp)).2,
   by decide⟩

/-! ## AuditLogger.cleanup error path (core/audit_logger.py, 179–191)

```python
fd, tmp = tempfile.mkstemp(dir=self._path.parent, prefix=".audit_tmp_")
try:
    os.write(fd, content)
    os.close(fd)
    os.replace(tmp, self._path)
except Exception:
    os.close(fd)
    os.unlink(tmp)
    raise
```

The filesystem effects are modelled by a three-field state: whether
the descriptor `fd` is still open, whether the temporary file still
exists at its temporary path, and whether the store has been
replaced.  Each `os.*` primitive either returns the updated state or
raises (`none`); in particular `os.close` on an already-closed
descriptor raises `OSError(EBADF)`, and a statement raising inside
the `except` block aborts the rest of the block.  `os.write` and
`os.replace` can fail for external reasons (disk full, permissions),
which the two Booleans inject. -/

/-- Filesystem/descriptor state during `cleanup`'s replacement. -/
structure FsState where
  fdOpen : Bool
  tmpExists : Bool
  storeReplaced : Bool
deriving DecidableEq

/-- `os.close(fd)`: raises `EBADF` when the descriptor is closed. -/
def osCloseOp (s : FsState) : Option FsState :=
  if s.fdOpen then some { s with fdOpen := false } else none

/-- `os.unlink(tmp)`: raises when the file is gone. -/
def osUnlinkOp (s : FsState) : Option FsState :=
  if s.tmpExists then some { s with tmpExists := false } else none

/-- `os.write(fd, content)`: may fail for external reasons. -/
def osWriteOp (fails : Bool) (s : FsState) : Option FsState :=
  if fails then none else some s

/-- `os.replace(tmp, store)`: atomic rename; on success the file no
longer exists at the temporary path and the store is replaced. -/
def osReplaceOp (fails : Bool) (s : FsState) : Option FsState :=
  if fails then none
  else some { s with tmpExists := false, storeReplaced := true }

/-- The `try` block: write, close, replace in order; on an exception,
return the state at the point of the raise (second component:
exception raised?). -/
def cleanupTry (writeFails replaceFails : Bool) (s : FsState) :
    FsState × Bool :=
  match osWriteOp writeFails s with
  | none => (s, true)
  | some s1 =>
    match osCloseOp s1 with
    | none => (s1, true)
    | some s2 =>
      match osReplaceOp replaceFails s2 with
      | none => (s2, true)
      | some s3 => (s3, false)

/-- The `except` block: `os.close(fd)`, then `os.unlink(tmp)`, then
re-raise; a statement that itself raises aborts the rest of the
block (the re-raise happens either way, the original exception being
replaced by the secondary one). -/
def cleanupHandler (s : FsState) : FsState :=
  match osCloseOp s with
  | none => s
  | some s1 =>
    match osUnlinkOp s1 with
    | none => s1
    | some s2 => s2

/-- `AuditLogger.cleanup`'s atomic-replacement section, from the
state after `mkstemp` (descriptor open, temporary file present):
final state and whether the call returned normally. -/
def cleanupRun (writeFails replaceFails : Bool) : FsState × Bool :=
  match cleanupTry writeFails replaceFails
      { fdOpen := true, tmpExists := true, storeReplaced := false } with
  | (s, false) => (s, true)
  | (s, true) => (cleanupHandler s, false)

/-- C6 is refuted on the rename step: when `os.write` fails the
handler does remove the temporary file before propagating, and on
success the store is replaced with the temporary path gone; but when
`os.replace` fails, the handler's `os.close(fd)` hits the descriptor
already closed by the `try` block, raises `EBADF` before
`os.unlink`, and the temporary file survives — contradicting the
claim that the temporary file is removed before the error
propagates. -/
theorem cleanup_rename_failure_leaks_tmp :
    cleanupRun true false =
      ({ fdOpen := false, tmpExists := false, storeReplaced := false }, false) ∧
    cleanupRun false false =
      ({ fdOpen := false, tmpExists := false, storeReplaced := true }, true) ∧
    (cleanupRun false true).2 = false ∧
    (cleanupRun false true).1.tmpExists = true :=
  ⟨by decide, by decide, by decide, by decide⟩

/-! ## ConfigManager.load_with_policy (core/config_manager.py, 130–169)

The persisted agent configuration (the fields the overlay can touch,
`config_schema.py`) and the validated policy overlay (the dict
produced by `policy_loader._map_policy`/`_validate_policy`).  In the
overlay, a missing key is `none`.  Python's nested-dict truthiness
(`if cp:` etc.) coincides with the field-wise conditions because
`_map_policy` only ever creates the sub-dicts with exactly these
keys, so an empty (falsy) sub-dict is the same as all its fields
missing.  The merge conditions are transliterated one by one:
`if policy.get("risk_level")`, `if cp.get("mode")` and
`if audit.get("log_level")` are truthiness tests (false on an empty
string), the list/number fields are `is not None` tests. -/

/-- `ScanCustomPattern` (`config_schema.py` lines 29–33). -/
structure ScanCustomPattern where
  name : String
  regex : String
  severity : String
deriving DecidableEq

/-- `ScanConfig` (`config_schema.py` lines 60–63). -/
structure ScanConfig where
  exclude_paths : List String
  custom_patterns : List ScanCustomPattern
deriving DecidableEq

/-- `AuditConfig` (`config_schema.py` lines 47–51). -/
structure AuditConfig where
  log_all_actions : Bool
  retention_days : Int
  log_level : String
deriving DecidableEq

/-- The agent section of `RafterConfig` (`config_schema.py` lines
88–96), restricted to the fields `load_with_policy` reads or
writes. -/
structure AgentConfig where
  risk_level : String
  command_policy : CommandPolicyConfig
  scan : ScanConfig
  audit : AuditConfig
deriving DecidableEq

/-- The validated `.rafter.yml` policy overlay as produced by
`policy_loader.load_policy`: every field optional. -/
structure PolicyOverlay where
  risk_level : Option String
  mode : Option String
  blocked_patterns : Option (List String)
  require_approval : Option (List String)
  exclude_paths : Option (List String)
  custom_patterns : Option (List ScanCustomPattern)
  retention_days : Option Int
  log_level : Option String
deriving DecidableEq

/-- The pure merge step of `ConfigManager.load_with_policy` (lines
139–169): each present (and truthy, where Python tests truthiness)
overlay field overwrites the corresponding persisted field. -/
def load_with_policy (config : AgentConfig) (policy : PolicyOverlay) :
    AgentConfig :=
  { risk_level :=
      match policy.risk_level with
      | some v => if v.isEmpty then config.risk_level else v
      | none => config.risk_level
    command_policy :=
      { mode :=
          match policy.mode with
          | some v => if v.isEmpty then config.command_policy.mode else v
          | none => config.command_policy.mode
        blocked_patterns :=
          policy.blocked_patterns.getD config.command_policy.blocked_patterns
        require_approval :=
          policy.require_approval.getD config.command_policy.require_approval }
    scan :=
      { exclude_paths := policy.exclude_paths.getD config.scan.exclude_paths
        custom_patterns :=
          policy.custom_patterns.getD config.scan.custom_patterns }
    audit :=
      { log_all_actions := config.audit.log_all_actions
        retention_days := policy.retention_days.getD config.audit.retention_days
        log_level :=
          match policy.log_level with
          | some v => if v.isEmpty then config.audit.log_level else v
          | none => config.audit.log_level } }

/-- An optional enum field is valid when, if present, its value is in
the allowed set (`policy_loader._validate_policy`). -/
def validEnum (o : Option String) (allowed : List String) : Bool :=
  match o with
  | none => true
  | some v => allowed.contains v

/-- A validated overlay: the three enum fields carry only values the
validator lets through (`_VALID_RISK_LEVELS`, `_VALID_COMMAND_MODES`,
`_VALID_LOG_LEVELS` in `policy_loader.py`). -/
def validOverlay (p : PolicyOverlay) : Bool :=
  validEnum p.risk_level ["minimal", "moderate", "aggressive"] &&
  validEnum p.mode ["allow-all", "approve-dangerous", "deny-list"] &&
  validEnum p.log_level ["debug", "info", "warn", "error"]

/-- A value passed by `validEnum` against a list of non-empty
literals is non-empty; specialized to the three validator sets. -/
theorem validEnum_not_empty (v : String) (allowed : List String)
    (hall : allowed.all (fun a => !a.isEmpty) = true)
    (h : allowed.contains v = true) : v.isEmpty = false := by
  rcases List.mem_of_elem_eq_true h with hv
  have := List.all_eq_true.mp hall v hv
  simpa using this

/-- C7: in the merged effective configuration every overlay field
that is present (and valid, per the overlay validator) overrides the
corresponding persisted value, and every field absent from the
overlay keeps its persisted value — field by field, expressed by
`Option.getD`: merged field = overlay value when present, persisted
value when `none`.  The audit `log_all_actions` flag, which the
overlay cannot carry, is always preserved. -/
theorem merged_policy_overlay_precedence (c : AgentConfig)
    (p : PolicyOverlay) (hv : validOverlay p = true) :
    (load_with_policy c p).risk_level = p.risk_level.getD c.risk_level ∧
    (load_with_policy c p).command_policy.mode =
      p.mode.getD c.command_policy.mode ∧
    (load_with_policy c p).command_policy.blocked_patterns =
      p.blocked_patterns.getD c.command_policy.blocked_patterns ∧
    (load_with_policy c p).command_policy.require_approval =
      p.require_approval.getD c.command_policy.require_approval ∧
    (load_with_policy c p).scan.exclude_paths =
      p.exclude_paths.getD c.scan.exclude_paths ∧
    (load_with_policy c p).scan.custom_patterns =
      p.custom_patterns.getD c.scan.custom_patterns ∧
    (load_with_policy c p).audit.retention_days =
      p.retention_days.getD c.audit.retention_days ∧
    (load_with_policy c p).audit.log_level =
      p.log_level.getD c.audit.log_level ∧
    (load_with_policy c p).audit.log_all_actions = c.audit.log_all_actions := by
  unfold validOverlay at hv
  rw [Bool.and_eq_true, Bool.and_eq_true] at hv
  rcases hv with ⟨⟨hrl, hmode⟩, hv3⟩
  refine ⟨?_, ?_, rfl, rfl, rfl, rfl, rfl, ?_, rfl⟩
  · show (match p.risk_level with
      | some v => if v.isEmpty then c.risk_level else v
      | none => c.risk_level) = p.risk_level.getD c.risk_level
    cases hpr : p.risk_level with
    | none => rfl
    | some v =>
      have : v.isEmpty = false := by
        unfold validEnum at hrl
        rw [hpr] at hrl
        exact validEnum_not_empty v _ (by decide) hrl
      simp [this]
  · show (match p.mode with
      | some v => if v.isEmpty then c.command_policy.mode else v
      | none => c.command_policy.mode) = p.mode.getD c.command_policy.mode
    cases hpm : p.mode with
    | none => rfl
    | some v =>
      have : v.isEmpty = false := by
        unfold validEnum at hmode
        rw [hpm] at hmode
        exact validEnum_not_empty v _ (by decide) hmode
      simp [this]
  · show (match p.log_level with
      | some v => if v.isEmpty then c.audit.log_level else v
      | none => c.audit.log_level) = p.log_level.getD c.audit.log_level
    cases hpl : p.log_level with
    | none => rfl
    | some v =>
      have : v.isEmpty = false := by
        unfold validEnum at hv3
        rw [hpl] at hv3
        exact validEnum_not_empty v _ (by decide) hv3
      simp [this]

/-- Witness for C7: an overlay carrying a new mode and blocked list
but no risk level or audit fields overrides exactly the fields it
carries and preserves the rest. -/
theorem merged_policy_overlay_precedence_witness :
    validOverlay (PolicyOverlay.mk none (some "deny-list")
      (some ["rm -rf /"]) none none none none none) = true ∧
    ((load_with_policy
        (AgentConfig.mk "moderate"
          (CommandPolicyConfig.mk "approve-dangerous" [] ["rm -rf"])
          (ScanConfig.mk ["vendor"] [])
          (AuditConfig.mk true 30 "info"))
        (PolicyOverlay.mk none (some "deny-list")
          (some ["rm -rf /"]) none none none none none)).risk_level =
      (none : Option String).getD "moderate" ∧
     (load_with_policy
        (AgentConfig.mk "moderate"
          (CommandPolicyConfig.mk "approve-dangerous" [] ["rm -rf"])
          (ScanConfig.mk ["vendor"] [])
          (AuditConfig.mk true 30 "info"))
        (PolicyOverlay.mk none (some "deny-list")
          (some ["rm -rf /"]) none none none none none)).command_policy.mode =
      (some "deny-list").getD "approve-dangerous" ∧
     (load_with_policy
        (AgentConfig.mk "moderate"
          (CommandPolicyConfig.mk "approve-dangerous" [] ["rm -rf"])
          (ScanConfig.mk ["vendor"] [])
          (AuditConfig.mk true 30 "info"))
        (PolicyOverlay.mk none (some "deny-list")
          (some ["rm -rf /"]) none none none none none)).command_policy.blocked_patterns =
      (some ["rm -rf /"]).getD []) :=
  ⟨by decide,
   (merged_policy_overlay_precedence
      (AgentConfig.mk "moderate"
        (CommandPolicyConfig.mk "approve-dangerous" [] ["rm -rf"])
        (ScanConfig.mk ["vendor"] [])
        (AuditConfig.mk true 30 "info"))
      (PolicyOverlay.mk none (some "deny-list")
        (some ["rm -rf /"]) none none none none none) (by decide)).1,
   (merged_policy_overlay_precedence
      (AgentConfig.mk "moderate"
        (CommandPolicyConfig.mk "approve-dangerous" [] ["rm -rf"])
        (ScanConfig.mk ["vendor"] [])
        (AuditConfig.mk true 30 "info"))
      (PolicyOverlay.mk none (some "deny-list")
        (some ["rm -rf /"]) none none none none none) (by decide)).2.1,
   (merged_policy_overlay_precedence
      (AgentConfig.mk "moderate"
        (CommandPolicyConfig.mk "approve-dangerous" [] ["rm -rf"])
        (ScanConfig.mk ["vendor"] [])
        (AuditConfig.mk true 30 "info"))
      (PolicyOverlay.mk none (some "deny-list")
        (some ["rm -rf /"]) none none none none none) (by decide)).2.2.1⟩

/-! ## AuditLogger.read (core/audit_logger.py, lines 149–177)

```python
entries = []
for line in self._path.read_text().splitlines():
    line = line.strip()
    if not line: continue
    try: entries.append(json.loads(line))
    except json.JSONDecodeError: continue
if event_type: entries = [e for e in entries if e.get("event_type") == event_type]
if agent_type: entries = [e for e in entries if e.get("agent_type") == agent_type]
if since:
    iso = since.isoformat()
    entries = [e for e in entries if e.get("timestamp", "") >= iso]
if limit: entries = entries[-limit:]
return entries
```

The store is modelled line by line: `none` is a blank or unparseable
line, `some e` a parsed entry.  An entry's fields are optional
(`dict.get`).  The `since` argument is modelled by its ISO string
(Python compares ISO strings lexicographically); `limit` by an
`Option Nat` (the CLI passes non-negative limits), and `if limit:`
is false for both `None` and `0`. -/

/-- One parsed audit-log line: the fields `read` consults. -/
structure AuditEntry where
  timestamp : Option String
  event_type : Option String
  agent_type : Option String
deriving DecidableEq

/-- `if event_type:` filter (skipped for a falsy — empty — value). -/
def filterEvent (et : Option String) (l : List AuditEntry) :
    List AuditEntry :=
  match et with
  | some e => if e.isEmpty then l else l.filter (fun x => x.event_type == some e)
  | none => l

/-- `if agent_type:` filter. -/
def filterAgent (ag : Option String) (l : List AuditEntry) :
    List AuditEntry :=
  match ag with
  | some a => if a.isEmpty then l else l.filter (fun x => x.agent_type == some a)
  | none => l

/-- `if since:` filter: keep entries whose timestamp (defaulting to
`""`) is ≥ the ISO string, by Python string comparison. -/
def filterSince (since : Option String) (l : List AuditEntry) :
    List AuditEntry :=
  match since with
  | some iso => l.filter (fun x => pyStrLe iso.data (x.timestamp.getD "").data)
  | none => l

/-- `AuditLogger.read`: parse (skipping bad lines), filter in order,
then `entries[-limit:]` when `limit` is truthy. -/
def readEntries (store : List (Option AuditEntry))
    (et ag since : Option String) (limit : Option Nat) : List AuditEntry :=
  let entries := filterSince since (filterAgent ag (filterEvent et
    (store.filterMap id)))
  match limit with
  | some n => if n = 0 then entries else entries.drop (entries.length - n)
  | none => entries

/-- C9: for a positive limit `n`, `read` returns exactly the last `n`
surviving entries, in store order: the limited read is the suffix of
the unlimited read of length `min n (number of survivors)`, and the
unlimited read is the parse-then-filter pipeline (unparseable lines
skipped, the three filters applied in order). -/
theorem read_limit_tail (store : List (Option AuditEntry))
    (et ag since : Option String) (n : Nat) (h : 0 < n) :
    readEntries store et ag since (some n) =
      (readEntries store et ag since none).drop
        ((readEntries store et ag since none).length - n) ∧
    readEntries store et ag since (some n) <:+
      readEntries store et ag since none ∧
    (readEntries store et ag since (some n)).length =
      min n (readEntries store et ag since none).length ∧
    readEntries store et ag since none =
      filterSince since (filterAgent ag (filterEvent et
        (store.filterMap id))) := by
  have hne : n ≠ 0 := Nat.pos_iff_ne_zero.mp h
  have hsome : readEntries store et ag since (some n) =
      (readEntries store et ag since none).drop
        ((readEntries store et ag since none).length - n) := by
    show (if n = 0 then
        filterSince since (filterAgent ag (filterEvent et (store.filterMap id)))
      else (filterSince since (filterAgent ag (filterEvent et
          (store.filterMap id)))).drop
        ((filterSince since (filterAgent ag (filterEvent et
          (store.filterMap id)))).length - n)) =
      (filterSince since (filterAgent ag (filterEvent et
          (store.filterMap id)))).drop
        ((filterSince since (filterAgent ag (filterEvent et
          (store.filterMap id)))).length - n)
    rw [if_neg hne]
  refine ⟨hsome, ?_, ?_, rfl⟩
  · rw [hsome]
    exact List.drop_suffix _ _
  · rw [hsome, List.length_drop]
    omega

/-- Witness for C9: a store with one unparseable line and three
entries, read with limit 2, yields the last two surviving entries. -/
theorem read_limit_tail_witness :
    readEntries
        [some ⟨some "2024-01-01T00:00:00", some "command_intercepted", none⟩,
         none,
         some ⟨some "2024-01-02T00:00:00", some "secret_detected", none⟩,
         some ⟨some "2024-01-03T00:00:00", some "command_intercepted", none⟩]
        none none none (some 2) =
      (readEntries
        [some ⟨some "2024-01-01T00:00:00", some "command_intercepted", none⟩,
         none,
         some ⟨some "2024-01-02T00:00:00", some "secret_detected", none⟩,
         some ⟨some "2024-01-03T00:00:00", some "command_intercepted", none⟩]
        none none none none).drop
        ((readEntries
          [some ⟨some "2024-01-01T00:00:00", some "command_intercepted", none⟩,
           none,
           some ⟨some "2024-01-02T00:00:00", some "secret_detected", none⟩,
           some ⟨some "2024-01-03T00:00:00", some "command_intercepted", none⟩]
          none none none none).length - 2) ∧
    readEntries
        [some ⟨some "2024-01-01T00:00:00", some "command_intercepted", none⟩,
         none,
         some ⟨some "2024-01-02T00:00:00", some "secret_detected", none⟩,
         some ⟨some "2024-01-03T00:00:00", some "command_intercepted", none⟩]
        none none none (some 2) =
      [⟨some "2024-01-02T00:00:00", some "secret_detected", none⟩,
       ⟨some "2024-01-03T00:00:00", some "command_intercepted", none⟩] :=
  ⟨(read_limit_tail
      [some ⟨some "2024-01-01T00:00:00", some "command_intercepted", none⟩,
       none,
       some ⟨some "2024-01-02T00:00:00", some "secret_detected", none⟩,
       some ⟨some "2024-01-03T00:00:00", some "command_intercepted", none⟩]
      none none none 2 (by decide)).1,
   by decide⟩

/-- C10: `read(limit=0)` is `read` with no limit — `if limit:` is
false for `0` exactly as for `None`, so every parseable,
filter-passing entry is returned. -/
theorem read_limit_zero_no_limit (store : List (Option AuditEntry))
    (et ag since : Option String) :
    readEntries store et ag since (some 0) =
      readEntries store et ag since none := rfl

end Rafter
